import Mathlib

/-!
Verification of the audio loopback-and-mixing engine (`src-tauri/src/audio.rs`,
`src-tauri/src/config.rs`) against its natural-language specification.

Embedding choices:
* `f32` samples and volumes are modelled as `ℚ`; the claims under scrutiny are
  about which expression is computed (`s * v` versus `0`), not about rounding.
* An `Arc<Mutex<T>>` control cell is an `MCell`: the stored value together
  with a flag recording whether the mutex is poisoned (`lock()` returns `Err`).
* Hardware interaction (device enumeration, supported configurations, stream
  construction success) is an explicit environment argument to each operation,
  reflecting exactly the branches the Rust code takes on each outcome.
* `HashMap` fields are association lists; `insert` is remove-then-append and
  `remove` is a filter, matching map semantics key-wise.
-/

/-- Models an `Arc<Mutex<α>>` control cell: the stored value plus whether the
mutex is poisoned, i.e. whether `lock()` yields `Err`. -/
structure MCell (α : Type) where
  val : α
  poisoned : Bool
deriving DecidableEq, Repr

/-- Embeds the `rtrb::RingBuffer<f32>` single-producer single-consumer queue:
a fixed capacity and the queued samples, oldest first. -/
structure RingBuf where
  capacity : ℕ
  buf : List ℚ
deriving DecidableEq, Repr

/-- `Producer::is_full`: the queue holds `capacity` samples. -/
def RingBuf.is_full (rb : RingBuf) : Bool :=
  rb.capacity ≤ rb.buf.length

/-- `Producer::push`: append a sample (callers in this codebase only push
after checking `is_full`). -/
def RingBuf.push (rb : RingBuf) (s : ℚ) : RingBuf :=
  { rb with buf := rb.buf ++ [s] }

/-- `Consumer::pop`: remove and return the oldest sample, or `none` when the
queue is empty. -/
def RingBuf.pop (rb : RingBuf) : Option ℚ × RingBuf :=
  match rb.buf with
  | [] => (none, rb)
  | x :: xs => (some x, { rb with buf := xs })

/-- `HashMap::get` on the association-list model. -/
def hm_get {α : Type} (l : List (String × α)) (k : String) : Option α :=
  (l.find? (fun p => decide (p.1 = k))).map (fun p => p.2)

/-- `HashMap::contains_key` on the association-list model. -/
def hm_contains {α : Type} (l : List (String × α)) (k : String) : Bool :=
  l.any (fun p => decide (p.1 = k))

/-- `HashMap::insert` on the association-list model: drop any entry with the
key, then append the new binding. -/
def hm_insert {α : Type} (l : List (String × α)) (k : String) (v : α) :
    List (String × α) :=
  l.filter (fun p => decide (p.1 ≠ k)) ++ [(k, v)]

/-- `HashMap::remove` on the association-list model. -/
def hm_remove {α : Type} (l : List (String × α)) (k : String) :
    List (String × α) :=
  l.filter (fun p => decide (p.1 ≠ k))

/-- In-place update of a mutex-guarded cell found in a map: the map structure
is untouched, only the cell under the key changes (`*v = volume` through the
shared `Arc`). -/
def hm_update {α : Type} (l : List (String × α)) (k : String) (v : α) :
    List (String × α) :=
  l.map (fun p => if p.1 = k then (p.1, v) else p)

/-- `cpal::StreamConfig` restricted to the fields this code inspects. -/
structure StreamConfig where
  channels : ℕ
  sample_rate : ℕ
deriving DecidableEq, Repr

/-- A `cpal::SupportedStreamConfigRange`: a channel count and a
`[min_sample_rate, max_sample_rate]` interval. -/
structure SupportedConfigRange where
  channels : ℕ
  min_sample_rate : ℕ
  max_sample_rate : ℕ
deriving DecidableEq, Repr

/-- `SupportedStreamConfigRange::with_sample_rate`: fix the range's rate. -/
def SupportedConfigRange.with_sample_rate (c : SupportedConfigRange) (r : ℕ) :
    StreamConfig :=
  { channels := c.channels, sample_rate := r }

/-- Environment for `add_output`: the outcome of resolving and probing one
output device. `supported_output_configs` is `none` when the enumeration call
errs; `default_output_config` is `none` when that call errs; `build_ok` tells
whether `build_output_stream` succeeds. -/
structure OutputDevice where
  supported_output_configs : Option (List SupportedConfigRange)
  default_output_config : Option StreamConfig
  build_ok : Bool
deriving DecidableEq, Repr

/-- Environment for `start_loopback`: the default output device's default
config (`none` when `default_output_config()` errs) and whether
`build_input_stream` succeeds. -/
structure CaptureDevice where
  default_output_config : Option StreamConfig
  build_ok : Bool
deriving DecidableEq, Repr

/-- The `AudioActor` state. `capture_stream` records whether a capture stream
exists (`Option<cpal::Stream>.is_some()`); `output_streams` keeps, per device
name, the config the stream was built with; `producers_poisoned` models
poisoning of the shared `producers` mutex. -/
structure AudioActor where
  capture_stream : Bool
  capture_sample_rate : Option ℕ
  producers_poisoned : Bool
  producers : List (String × RingBuf)
  output_streams : List (String × StreamConfig)
  volumes : List (String × MCell ℚ)
  mutes : List (String × MCell Bool)
  input_volume : MCell ℚ
  input_muted : MCell Bool
deriving DecidableEq, Repr

/-- `AudioActor::new`. -/
def AudioActor.new : AudioActor :=
  { capture_stream := false
    capture_sample_rate := none
    producers_poisoned := false
    producers := []
    output_streams := []
    volumes := []
    mutes := []
    input_volume := { val := 1, poisoned := false }
    input_muted := { val := false, poisoned := false } }

/-- The gain computation shared verbatim by the capture callback closure
(`audio.rs` lines 93–97) and the output callback closure (lines 227–231):
a failed mute lock yields 0; a held mute yields 0; otherwise a failed volume
lock yields 1 and a successful one yields the stored volume. -/
def effective_gain (mute : MCell Bool) (vol : MCell ℚ) : ℚ :=
  if mute.poisoned then 0
  else if mute.val then 0
  else if vol.poisoned then 1
  else vol.val

/-- The capture callback's per-producer loop (`audio.rs` lines 100–106):
for each sample of the block, push `sample * vol` unless the channel is
full, in which case that sample is dropped for this channel. -/
def feed_producer (data : List ℚ) (vol : ℚ) (rb : RingBuf) : RingBuf :=
  data.foldl (fun rb sample => if rb.is_full then rb else rb.push (sample * vol)) rb

/-- The capture callback closure (`audio.rs` lines 91–108): compute the
effective input gain, then, if the producers lock is acquired, feed every
registered producer; a poisoned producers lock leaves every channel
untouched. -/
def capture_callback (data : List ℚ) (input_muted : MCell Bool)
    (input_volume : MCell ℚ) (producers_poisoned : Bool)
    (producers : List (String × RingBuf)) : List (String × RingBuf) :=
  let vol := effective_gain input_muted input_volume
  if producers_poisoned then producers
  else producers.map (fun p => (p.1, feed_producer data vol p.2))

/-- The output callback's slot loop (`audio.rs` lines 233–236): for each of
`n` slots, pop a sample (0.0 on underrun) and write `val * current_vol`.
Returns the written slots and the drained channel. -/
def render_slots (n : ℕ) (rb : RingBuf) (g : ℚ) : List ℚ × RingBuf :=
  match n with
  | 0 => ([], rb)
  | Nat.succ m =>
    let p := rb.pop
    let rest := render_slots m p.2 g
    ((p.1.getD 0) * g :: rest.1, rest.2)

/-- The output callback closure (`audio.rs` lines 226–237): resolve this
route's gain from its mute and volume cells, then render `n` slots from the
transfer channel. -/
def output_callback (n : ℕ) (mute : MCell Bool) (vol : MCell ℚ)
    (rb : RingBuf) : List ℚ × RingBuf :=
  render_slots n rb (effective_gain mute vol)

/-- `self.capture_sample_rate.unwrap_or(cpal::SampleRate(48000))`
(`audio.rs` line 182). -/
def target_rate (capture_sample_rate : Option ℕ) : ℕ :=
  capture_sample_rate.getD 48000

/-- The `best_config` search (`audio.rs` lines 184–193): the first supported
range whose `[min, max]` rate interval contains the target, with its rate
fixed to the target; `none` when enumeration errs or no range matches. -/
def choose_best_config (supported : Option (List SupportedConfigRange))
    (target : ℕ) : Option StreamConfig :=
  match supported with
  | none => none
  | some configs =>
    (configs.find? (fun c =>
        decide (c.min_sample_rate ≤ target) && decide (target ≤ c.max_sample_rate))).map
      (fun c => c.with_sample_rate target)

/-- The config fallback chain (`audio.rs` lines 195–203): the matched range
if any, else the device's default config, else the hard-coded
2-channel / 44100 Hz config. -/
def choose_config (dev : OutputDevice) (target : ℕ) : StreamConfig :=
  match choose_best_config dev.supported_output_configs target with
  | some c => c
  | none =>
    match dev.default_output_config with
    | some c => c
    | none => { channels := 2, sample_rate := 44100 }

/-- `AudioActor::start_loopback` (`audio.rs` lines 55–122), with the host's
default device passed as environment (`none` when absent). The sample rate is
recorded before the stream build is attempted; on build failure only the
recording remains. -/
def AudioActor.start_loopback (a : AudioActor) (env : Option CaptureDevice) :
    AudioActor :=
  if a.capture_stream then a
  else
    match env with
    | none => a
    | some dev =>
      match dev.default_output_config with
      | none => a
      | some config =>
        let a1 := { a with capture_sample_rate := some config.sample_rate }
        if dev.build_ok then { a1 with capture_stream := true } else a1

/-- `AudioActor::stop_loopback` (`audio.rs` lines 124–128). -/
def AudioActor.stop_loopback (a : AudioActor) : AudioActor :=
  { a with capture_stream := false }

/-- `AudioActor::set_volume` (`audio.rs` lines 130–140): update the named
volume cell in place when present and its lock acquirable; otherwise log
and leave everything unchanged. -/
def AudioActor.set_volume (a : AudioActor) (device_name : String) (volume : ℚ) :
    AudioActor :=
  match hm_get a.volumes device_name with
  | none => a
  | some cell =>
    if cell.poisoned then a
    else
      { a with volumes := hm_update a.volumes device_name { val := volume, poisoned := false } }

/-- `AudioActor::set_mute` (`audio.rs` lines 142–149). -/
def AudioActor.set_mute (a : AudioActor) (device_name : String) (muted : Bool) :
    AudioActor :=
  match hm_get a.mutes device_name with
  | none => a
  | some cell =>
    if cell.poisoned then a
    else
      { a with mutes := hm_update a.mutes device_name { val := muted, poisoned := false } }

/-- `AudioActor::set_input_volume` (`audio.rs` lines 151–154). -/
def AudioActor.set_input_volume (a : AudioActor) (volume : ℚ) : AudioActor :=
  if a.input_volume.poisoned then a
  else { a with input_volume := { val := volume, poisoned := false } }

/-- `AudioActor::set_input_mute` (`audio.rs` lines 156–159). -/
def AudioActor.set_input_mute (a : AudioActor) (muted : Bool) : AudioActor :=
  if a.input_muted.poisoned then a
  else { a with input_muted := { val := muted, poisoned := false } }

/-- `AudioActor::add_output` (`audio.rs` lines 161–250), with the result of
resolving the named device passed as environment (`none` when enumeration
errs or no device matches). Mirrors the source's order: early return on a
present key; device resolution; config choice; producer registration
(skipped under a poisoned producers lock); volume and mute cell insertion;
and only then the stream build, whose failure leaves the earlier insertions
in place. -/
def AudioActor.add_output (a : AudioActor) (device_name : String)
    (env : Option OutputDevice) : AudioActor :=
  if hm_contains a.output_streams device_name then a
  else
    match env with
    | none => a
    | some dev =>
      let target := target_rate a.capture_sample_rate
      let config := choose_config dev target
      let chan : RingBuf := { capacity := 16384, buf := [] }
      let a1 :=
        if a.producers_poisoned then a
        else { a with producers := a.producers ++ [(device_name, chan)] }
      let a2 := { a1 with
        volumes := hm_insert a1.volumes device_name { val := 1, poisoned := false }
        mutes := hm_insert a1.mutes device_name { val := false, poisoned := false } }
      if dev.build_ok then
        { a2 with output_streams := hm_insert a2.output_streams device_name config }
      else a2

/-- `AudioActor::remove_output` (`audio.rs` lines 252–267): drop the stream
first, then drop the producer registration (skipped under a poisoned
producers lock), then the volume and mute cells. -/
def AudioActor.remove_output (a : AudioActor) (device_name : String) : AudioActor :=
  let a1 := { a with output_streams := hm_remove a.output_streams device_name }
  let a2 :=
    if a1.producers_poisoned then a1
    else { a1 with producers := a1.producers.filter (fun p => decide (p.1 ≠ device_name)) }
  { a2 with
    volumes := hm_remove a2.volumes device_name
    mutes := hm_remove a2.mutes device_name }

/-- `config.rs` `OutputConfig`. -/
structure OutputConfig where
  name : String
  volume : ℚ
  muted : Bool
deriving DecidableEq, Repr

/-- `config.rs` `AppConfig`. -/
structure AppConfig where
  input_volume : ℚ
  input_muted : Bool
  outputs : List OutputConfig
deriving DecidableEq, Repr

/-- `AppConfig::default_config` (`config.rs` lines 20–28). -/
def AppConfig.default_config : AppConfig :=
  { input_volume := 1, input_muted := false, outputs := [] }

/-- Environment for `load_config`: the outcome of each fallible step.
`config_path` is `get_config_path`'s result; `read_to_string` is `none` when
reading errs; `parse` gives `serde_json::from_str`'s outcome per content. -/
structure ConfigEnv where
  config_path : Option String
  file_exists : Bool
  read_to_string : Option String
  parse : String → Option AppConfig

/-- `load_config` (`config.rs` lines 44–58): every failure path returns the
default configuration. -/
def load_config (env : ConfigEnv) : AppConfig :=
  match env.config_path with
  | none => AppConfig.default_config
  | some _ =>
    if !env.file_exists then AppConfig.default_config
    else
      match env.read_to_string with
      | some content => (env.parse content).getD AppConfig.default_config
      | none => AppConfig.default_config

/-! ## Supporting lemmas -/

/-- The slots written by `render_slots` are, position by position, the queued
sample at that position (0 on underrun) times the gain. -/
theorem render_slots_fst (g : ℚ) : ∀ (n : ℕ) (rb : RingBuf),
    (render_slots n rb g).1
      = (List.range n).map (fun i => ((rb.buf[i]?).getD 0) * g) := by
  intro n
  induction n with
  | zero => intro rb; simp [render_slots]
  | succ m ih =>
    intro rb
    rw [List.range_succ_eq_map]
    match hbuf : rb.buf with
    | [] =>
      simp [render_slots, RingBuf.pop, hbuf, ih, List.map_map, Function.comp_def]
    | x :: xs =>
      have hpop : rb.pop = (some x, { rb with buf := xs }) := by
        simp [RingBuf.pop, hbuf]
      simp [render_slots, hpop, hbuf, ih, List.map_map, Function.comp_def]

/-- `feed_producer` keeps the channel capacity and appends exactly the
longest prefix of the scaled block that fits in the remaining space. -/
theorem feed_producer_spec (vol : ℚ) : ∀ (data : List ℚ) (rb : RingBuf),
    (feed_producer data vol rb).capacity = rb.capacity ∧
    (feed_producer data vol rb).buf
      = rb.buf
        ++ (data.map (fun s => s * vol)).take (rb.capacity - rb.buf.length) := by
  intro data
  induction data with
  | nil => intro rb; simp [feed_producer]
  | cons s rest ih =>
    intro rb
    have step : feed_producer (s :: rest) vol rb
        = feed_producer rest vol (if rb.is_full then rb else rb.push (s * vol)) := rfl
    by_cases h : rb.is_full
    · have h0 : rb.capacity - rb.buf.length = 0 := by
        simp only [RingBuf.is_full, decide_eq_true_eq] at h
        omega
      rw [step, if_pos h]
      rcases ih rb with ⟨ihc, ihb⟩
      refine ⟨ihc, ?_⟩
      rw [ihb, h0]
      simp
    · have hlt : rb.buf.length < rb.capacity := by
        simp only [RingBuf.is_full, decide_eq_true_eq, not_le] at h
        exact h
      rw [step, if_neg h]
      rcases ih (rb.push (s * vol)) with ⟨ihc, ihb⟩
      refine ⟨by simpa [RingBuf.push] using ihc, ?_⟩
      rw [ihb]
      simp only [RingBuf.push, List.length_append, List.length_cons,
        List.length_nil, List.map_cons]
      have harith : rb.capacity - rb.buf.length
          = (rb.capacity - (rb.buf.length + (0 + 1))) + 1 := by omega
      rw [harith, List.take_succ_cons, List.append_assoc]
      simp

/-- A filter by key-difference leaves a list untouched when no entry carries
the key. -/
theorem filter_ne_of_absent {α : Type} (l : List (String × α)) (k : String)
    (h : ∀ p ∈ l, p.1 ≠ k) :
    l.filter (fun p => decide (p.1 ≠ k)) = l := by
  rw [List.filter_eq_self]
  intro p hp
  simpa using h p hp

/-- Removing a key after appending a binding for it removes exactly that
binding. -/
theorem hm_remove_append_self {α : Type} (l : List (String × α)) (k : String)
    (v : α) :
    hm_remove (l ++ [(k, v)]) k = hm_remove l k := by
  simp [hm_remove, List.filter_append]

/-- Removing a key right after inserting it is the same as removing it. -/
theorem hm_remove_insert {α : Type} (l : List (String × α)) (k : String)
    (v : α) :
    hm_remove (hm_insert l k v) k = hm_remove l k := by
  simp [hm_remove, hm_insert, List.filter_append, List.filter_filter]

/-- A key carried by no entry is not contained. -/
theorem hm_contains_eq_false {α : Type} (l : List (String × α)) (k : String)
    (h : ∀ p ∈ l, p.1 ≠ k) :
    hm_contains l k = false := by
  simp only [hm_contains, List.any_eq_false, decide_eq_true_eq]
  exact h

/-- Mapping a per-entry transformation that keeps the key commutes with
filtering on the key. -/
theorem map_keyed_filter {β γ : Type} (g : String → β → γ) (q : String → Bool)
    (l : List (String × β)) :
    (l.filter (fun p => q p.1)).map (fun p => (p.1, g p.1 p.2))
      = (l.map (fun p => (p.1, g p.1 p.2))).filter (fun p => q p.1) := by
  induction l with
  | nil => rfl
  | cons x xs ih =>
    cases h : q x.1 <;> simp [List.filter_cons, h, ih]

/-- `find?` returns the head of the first matching suffix. -/
theorem find?_first_match {α : Type} (p : α → Bool) (post : List α) (c : α)
    (hc : p c = true) : ∀ (pre : List α),
    (∀ x ∈ pre, p x = false) → (pre ++ c :: post).find? p = some c := by
  intro pre
  induction pre with
  | nil => intro _; simp [List.find?_cons, hc]
  | cons x xs ih =>
    intro hpre
    have hx := hpre x (by simp)
    simp only [List.cons_append, List.find?_cons, hx]
    exact ih (fun y hy => hpre y (by simp [hy]))

/-! ## Claims -/

/-- Claim C1: for every volume `v` in `[0,1]` and every sample `s` popped from
an output route's transfer channel, the output callback writes `s * v` into
the sample slot when the route is unmuted, and writes `0` when the route is
muted, regardless of `v`. -/
theorem c1_output_writes_scaled_sample (v s : ℚ) (hv0 : 0 ≤ v) (hv1 : v ≤ 1)
    (n i : ℕ) (rb : RingBuf) (muted : Bool)
    (hs : rb.buf[i]? = some s) (hi : i < n) :
    (output_callback n { val := muted, poisoned := false }
        { val := v, poisoned := false } rb).1[i]?
      = some (if muted then 0 else s * v) := by
  rw [output_callback, render_slots_fst]
  cases muted <;>
    simp [effective_gain, List.getElem?_map, List.getElem?_range, hi, hs]

/-- Witness for C1 at a concrete route: channel holding sample 3, volume 1/2,
once unmuted and once muted. -/
theorem c1_witness :
    (output_callback 1 { val := false, poisoned := false }
        { val := (1 : ℚ)/2, poisoned := false }
        { capacity := 16384, buf := [3] }).1[0]?
      = some (if false then 0 else 3 * ((1 : ℚ)/2)) ∧
    (output_callback 1 { val := true, poisoned := false }
        { val := (1 : ℚ)/2, poisoned := false }
        { capacity := 16384, buf := [3] }).1[0]?
      = some (if true then 0 else 3 * ((1 : ℚ)/2)) :=
  ⟨c1_output_writes_scaled_sample ((1 : ℚ)/2) 3 (by norm_num) (by norm_num)
      1 0 { capacity := 16384, buf := [3] } false rfl (by norm_num),
   c1_output_writes_scaled_sample ((1 : ℚ)/2) 3 (by norm_num) (by norm_num)
      1 0 { capacity := 16384, buf := [3] } true rfl (by norm_num)⟩

/-- Claim C9: for every output-callback invocation and every sample slot for
which the transfer channel is empty (underrun), the value written to that
slot is exactly 0, for every volume and mute setting. -/
theorem c9_underrun_writes_silence (n i : ℕ) (rb : RingBuf)
    (mute : MCell Bool) (vol : MCell ℚ)
    (hs : rb.buf[i]? = none) (hi : i < n) :
    (output_callback n mute vol rb).1[i]? = some 0 := by
  rw [output_callback, render_slots_fst]
  simp [List.getElem?_map, List.getElem?_range, hi, hs]

/-- Witness for C9: a one-slot callback over an empty channel with a wild
volume cell still writes 0. -/
theorem c9_witness :
    (output_callback 1 { val := false, poisoned := false }
        { val := (7 : ℚ), poisoned := false }
        { capacity := 16384, buf := [] }).1[0]? = some 0 :=
  c9_underrun_writes_silence 1 0 { capacity := 16384, buf := [] }
    { val := false, poisoned := false } { val := (7 : ℚ), poisoned := false }
    rfl (by norm_num)

/-- Counterexample to claim C2: with the mute lock healthy (unmuted) and the
volume lock poisoned — a combination in which a ControlState lock acquisition
fails — the effective gain is 1, not 0. -/
theorem c2_counterexample :
    effective_gain { val := false, poisoned := false }
        { val := (5 : ℚ), poisoned := true } = 1 ∧
    effective_gain { val := false, poisoned := false }
        { val := (5 : ℚ), poisoned := true } ≠ 0 := by
  constructor <;> simp [effective_gain]

/-- Claim C2 as amended: a failed mute-lock acquisition degrades the gain to
0, and a muted route has gain 0 whatever the volume lock does; but when the
mute lock succeeds and reports unmuted, a failed volume-lock acquisition
degrades the gain to 1 (unity), not to silence. -/
theorem c2_amended_poisoning_gains (mute : MCell Bool) (vol : MCell ℚ) :
    (mute.poisoned = true → effective_gain mute vol = 0) ∧
    (mute.poisoned = false → mute.val = true → effective_gain mute vol = 0) ∧
    (mute.poisoned = false → mute.val = false → vol.poisoned = true →
      effective_gain mute vol = 1) := by
  refine ⟨fun h1 => ?_, fun h1 h2 => ?_, fun h1 h2 h3 => ?_⟩ <;>
    simp [effective_gain, h1]
  · simp [h2]
  · simp [h2, h3]

/-- Witness for the amended C2 at concrete cells: one per poisoning
combination. -/
theorem c2_amended_witness :
    effective_gain { val := false, poisoned := true }
        { val := (3 : ℚ)/4, poisoned := false } = 0 ∧
    effective_gain { val := true, poisoned := false }
        { val := (3 : ℚ)/4, poisoned := true } = 0 ∧
    effective_gain { val := false, poisoned := false }
        { val := (3 : ℚ)/4, poisoned := true } = 1 :=
  ⟨(c2_amended_poisoning_gains { val := false, poisoned := true }
      { val := (3 : ℚ)/4, poisoned := false }).1 rfl,
   (c2_amended_poisoning_gains { val := true, poisoned := false }
      { val := (3 : ℚ)/4, poisoned := true }).2.1 rfl rfl,
   (c2_amended_poisoning_gains { val := false, poisoned := false }
      { val := (3 : ℚ)/4, poisoned := true }).2.2 rfl rfl rfl⟩

/-- Claim C7: for every engine state in which a name is already present in
the output-stream map, `add_output` on that name is a no-op: the whole state
is unchanged, and in particular the sizes of the producer registry, stream
map and control-state maps are unchanged. -/
theorem c7_add_existing_noop (a : AudioActor) (name : String)
    (env : Option OutputDevice)
    (h : hm_contains a.output_streams name = true) :
    a.add_output name env = a ∧
    (a.add_output name env).producers.length = a.producers.length ∧
    (a.add_output name env).output_streams.length = a.output_streams.length ∧
    (a.add_output name env).volumes.length = a.volumes.length ∧
    (a.add_output name env).mutes.length = a.mutes.length := by
  have hid : a.add_output name env = a := by
    simp [AudioActor.add_output, h]
  exact ⟨hid, by rw [hid], by rw [hid], by rw [hid], by rw [hid]⟩

/-- Witness for C7: an actor already routing to device `X` is untouched by a
second `add_output X`. -/
theorem c7_witness :
    (let a : AudioActor :=
      { AudioActor.new with
          output_streams := [("X", { channels := 2, sample_rate := 48000 })] }
     a.add_output "X"
        (some { supported_output_configs := some []
                default_output_config := none
                build_ok := true }) = a) := by
  exact (c7_add_existing_noop _ "X" _ (by decide)).1

/-- Claim C8: for every name that was never added or has already been
removed — so that it is absent from the volume and mute maps — `set_volume`
and `set_mute` on that name are no-ops leaving the whole actor state (volume
cells, mute cells, producer registrations, streams) unchanged. -/
theorem c8_set_unknown_noop (a : AudioActor) (name : String) (v : ℚ)
    (b : Bool) (hv : hm_get a.volumes name = none)
    (hmu : hm_get a.mutes name = none) :
    a.set_volume name v = a ∧ a.set_mute name b = a := by
  constructor
  · simp [AudioActor.set_volume, hv]
  · simp [AudioActor.set_mute, hmu]

/-- Witness for C8: a fresh actor ignores volume and mute commands for the
never-added device `X`. -/
theorem c8_witness :
    AudioActor.new.set_volume "X" ((4 : ℚ)/5) = AudioActor.new ∧
    AudioActor.new.set_mute "X" true = AudioActor.new :=
  c8_set_unknown_noop AudioActor.new "X" ((4 : ℚ)/5) true rfl rfl

/-- Counterexample to claim C3: with stream construction failing, the engine
state is not unchanged — `add_output` has already registered a producer and
volume/mute cells, and `start_loopback` has already recorded the sample
rate. -/
theorem c3_counterexample :
    (AudioActor.new.add_output "X"
        (some { supported_output_configs := some []
                default_output_config := none
                build_ok := false })).volumes ≠ AudioActor.new.volumes ∧
    (AudioActor.new.start_loopback
        (some { default_output_config :=
                  some { channels := 2, sample_rate := 44100 }
                build_ok := false })).capture_sample_rate
      ≠ AudioActor.new.capture_sample_rate := by
  constructor <;> decide

/-- Claim C3 as amended: when hardware-stream construction fails, no stream
is created — the stream map and the capture-stream slot are unchanged — but
the mutations performed before the build attempt persist: `start_loopback`
has recorded the device's sample rate, and `add_output` has registered the
fresh transfer-channel producer (unless the producers lock is poisoned) and
inserted default volume and mute cells. -/
theorem c3_amended_no_rollback (a : AudioActor) (name : String)
    (dev : OutputDevice) (cdev : CaptureDevice) (cfg : StreamConfig)
    (hpres : hm_contains a.output_streams name = false)
    (hbuild : dev.build_ok = false)
    (hcs : a.capture_stream = false)
    (hcfg : cdev.default_output_config = some cfg)
    (hcb : cdev.build_ok = false) :
    (a.add_output name (some dev)).output_streams = a.output_streams ∧
    (a.add_output name (some dev)).capture_stream = a.capture_stream ∧
    (a.add_output name (some dev)).capture_sample_rate
      = a.capture_sample_rate ∧
    (a.add_output name (some dev)).producers
      = (if a.producers_poisoned then a.producers
         else a.producers ++ [(name, { capacity := 16384, buf := [] })]) ∧
    (a.add_output name (some dev)).volumes
      = hm_insert a.volumes name { val := 1, poisoned := false } ∧
    (a.add_output name (some dev)).mutes
      = hm_insert a.mutes name { val := false, poisoned := false } ∧
    a.start_loopback (some cdev)
      = { a with capture_sample_rate := some cfg.sample_rate } := by
  by_cases hpp : a.producers_poisoned <;>
    simp [AudioActor.add_output, AudioActor.start_loopback, hpres, hbuild,
      hcs, hcfg, hcb, hpp]

/-- Witness for the amended C3: a fresh actor, a device that rejects the
stream, and a capture device that rejects the stream. -/
theorem c3_amended_witness :
    (AudioActor.new.add_output "X"
        (some { supported_output_configs := some []
                default_output_config := none
                build_ok := false })).output_streams = [] ∧
    (AudioActor.new.add_output "X"
        (some { supported_output_configs := some []
                default_output_config := none
                build_ok := false })).producers
      = [("X", { capacity := 16384, buf := [] })] ∧
    (AudioActor.new.add_output "X"
        (some { supported_output_configs := some []
                default_output_config := none
                build_ok := false })).volumes
      = [("X", { val := 1, poisoned := false })] ∧
    (AudioActor.new.start_loopback
        (some { default_output_config :=
                  some { channels := 2, sample_rate := 44100 }
                build_ok := false })).capture_sample_rate = some 44100 := by
  have h := c3_amended_no_rollback AudioActor.new "X"
    { supported_output_configs := some []
      default_output_config := none
      build_ok := false }
    { default_output_config := some { channels := 2, sample_rate := 44100 }
      build_ok := false }
    { channels := 2, sample_rate := 44100 } rfl rfl rfl rfl rfl
  refine ⟨h.1, ?_, ?_, ?_⟩
  · rw [h.2.2.2.1]; rfl
  · rw [h.2.2.2.2.1]; rfl
  · rw [h.2.2.2.2.2.2]

/-- Claim C4: for every engine state in which a name is absent from the
stream registry, the producer registry and the volume and mute maps,
`add_output` on that name immediately followed by `remove_output` leaves all
four registries equal to their pre-`add_output` state, whatever the device
environment did. -/
theorem c4_add_then_remove_restores (a : AudioActor) (name : String)
    (env : Option OutputDevice)
    (hs : ∀ p ∈ a.output_streams, p.1 ≠ name)
    (hp : ∀ p ∈ a.producers, p.1 ≠ name)
    (hv : ∀ p ∈ a.volumes, p.1 ≠ name)
    (hmu : ∀ p ∈ a.mutes, p.1 ≠ name) :
    ((a.add_output name env).remove_output name).output_streams
      = a.output_streams ∧
    ((a.add_output name env).remove_output name).producers = a.producers ∧
    ((a.add_output name env).remove_output name).volumes = a.volumes ∧
    ((a.add_output name env).remove_output name).mutes = a.mutes := by
  have hc : hm_contains a.output_streams name = false :=
    hm_contains_eq_false _ _ hs
  have hs2 : ∀ (s : String) (b : StreamConfig),
      (s, b) ∈ a.output_streams → ¬s = name :=
    fun s b hmem => hs (s, b) hmem
  have hp2 : ∀ (s : String) (b : RingBuf),
      (s, b) ∈ a.producers → ¬s = name :=
    fun s b hmem => hp (s, b) hmem
  have hv2 : ∀ (s : String) (b : MCell ℚ),
      (s, b) ∈ a.volumes → ¬s = name :=
    fun s b hmem => hv (s, b) hmem
  have hmu2 : ∀ (s : String) (b : MCell Bool),
      (s, b) ∈ a.mutes → ¬s = name :=
    fun s b hmem => hmu (s, b) hmem
  cases env with
  | none =>
    by_cases hpp : a.producers_poisoned <;>
      simp [AudioActor.add_output, hc, AudioActor.remove_output, hm_remove,
        hpp, List.filter_append, List.filter_filter] <;>
      first
      | exact ⟨hs2, hv2, hmu2⟩
      | exact ⟨hs2, hp2, hv2, hmu2⟩
  | some dev =>
    by_cases hpp : a.producers_poisoned <;> by_cases hb : dev.build_ok <;>
      simp [AudioActor.add_output, hc, AudioActor.remove_output, hpp, hb,
        hm_insert, hm_remove, List.filter_append, List.filter_filter] <;>
      first
      | exact ⟨hs2, hv2, hmu2⟩
      | exact ⟨hs2, hp2, hv2, hmu2⟩

/-- Witness for C4: an actor already routing `Y` adds and then removes `X`
(device present, stream build succeeds) and every registry is restored. -/
theorem c4_witness :
    (let a : AudioActor :=
      { AudioActor.new with
          output_streams := [("Y", { channels := 2, sample_rate := 48000 })]
          producers := [("Y", { capacity := 16384, buf := [] })]
          volumes := [("Y", { val := 1, poisoned := false })]
          mutes := [("Y", { val := false, poisoned := false })] }
     let dev : OutputDevice :=
      { supported_output_configs :=
          some [{ channels := 2, min_sample_rate := 44100, max_sample_rate := 48000 }]
        default_output_config := none
        build_ok := true }
     ((a.add_output "X" (some dev)).remove_output "X").output_streams
        = a.output_streams ∧
     ((a.add_output "X" (some dev)).remove_output "X").producers
        = a.producers ∧
     ((a.add_output "X" (some dev)).remove_output "X").volumes
        = a.volumes ∧
     ((a.add_output "X" (some dev)).remove_output "X").mutes = a.mutes) :=
  c4_add_then_remove_restores _ "X" _
    (by decide) (by decide) (by decide) (by decide)

/-- Claim C5: when adding an output, the target rate is the capture
session's rate if active, else 48000 Hz; the chosen configuration is the
first supported range whose `[min, max]` interval contains the target, with
its rate fixed to the target; if no range contains the target, the device's
own default configuration is used; and on a successful build the stream is
registered with exactly the chosen configuration. -/
theorem c5_sample_rate_policy (t r : ℕ) (dev : OutputDevice)
    (pre post configs : List SupportedConfigRange) (c : SupportedConfigRange)
    (d : StreamConfig) (a : AudioActor) (name : String) :
    target_rate (some r) = r ∧
    target_rate none = 48000 ∧
    (dev.supported_output_configs = some (pre ++ c :: post) →
      (∀ c0 ∈ pre, ¬(c0.min_sample_rate ≤ t ∧ t ≤ c0.max_sample_rate)) →
      c.min_sample_rate ≤ t → t ≤ c.max_sample_rate →
      choose_config dev t = c.with_sample_rate t) ∧
    (dev.supported_output_configs = some configs →
      (∀ c0 ∈ configs, ¬(c0.min_sample_rate ≤ t ∧ t ≤ c0.max_sample_rate)) →
      dev.default_output_config = some d →
      choose_config dev t = d) ∧
    (hm_contains a.output_streams name = false →
      dev.build_ok = true →
      (a.add_output name (some dev)).output_streams
        = hm_insert a.output_streams name
            (choose_config dev (target_rate a.capture_sample_rate))) := by
  refine ⟨rfl, rfl, ?_, ?_, ?_⟩
  · intro hsup hpre hc1 hc2
    have hfind : (pre ++ c :: post).find?
        (fun c0 => decide (c0.min_sample_rate ≤ t)
          && decide (t ≤ c0.max_sample_rate)) = some c := by
      apply find?_first_match
      · simp [hc1, hc2]
      · intro x hx
        by_cases h1 : x.min_sample_rate ≤ t
        · by_cases h2 : t ≤ x.max_sample_rate
          · exact absurd ⟨h1, h2⟩ (hpre x hx)
          · simp [h1, h2]
        · simp [h1]
    simp [choose_config, choose_best_config, hsup, hfind]
  · intro hsup hnone hdef
    have hfind : configs.find?
        (fun c0 => decide (c0.min_sample_rate ≤ t)
          && decide (t ≤ c0.max_sample_rate)) = none := by
      rw [List.find?_eq_none]
      intro x hx
      by_cases h1 : x.min_sample_rate ≤ t
      · by_cases h2 : t ≤ x.max_sample_rate
        · exact absurd ⟨h1, h2⟩ (hnone x hx)
        · simp [h1, h2]
      · simp [h1]
    simp [choose_config, choose_best_config, hsup, hfind, hdef]
  · intro hpres hbuild
    by_cases hpp : a.producers_poisoned <;>
      simp [AudioActor.add_output, hpres, hbuild, hpp]

/-- Witness for C5, following the spec's own scenario: with capture at
48000 Hz, a device supporting 44100–48000 Hz is configured at exactly
48000 Hz and registered so; a device supporting only 44100 Hz falls back to
its own default configuration. -/
theorem c5_witness :
    choose_config
        { supported_output_configs :=
            some [{ channels := 2, min_sample_rate := 44100,
                    max_sample_rate := 48000 }]
          default_output_config :=
            some { channels := 2, sample_rate := 44100 }
          build_ok := true } 48000
      = { channels := 2, sample_rate := 48000 } ∧
    choose_config
        { supported_output_configs :=
            some [{ channels := 2, min_sample_rate := 44100,
                    max_sample_rate := 44100 }]
          default_output_config :=
            some { channels := 2, sample_rate := 44100 }
          build_ok := true } 48000
      = { channels := 2, sample_rate := 44100 } ∧
    target_rate (some 48000) = 48000 ∧
    target_rate none = 48000 ∧
    (({ AudioActor.new with capture_sample_rate := some 48000 }).add_output
        "Speakers"
        (some { supported_output_configs :=
                  some [{ channels := 2, min_sample_rate := 44100,
                          max_sample_rate := 48000 }]
                default_output_config :=
                  some { channels := 2, sample_rate := 44100 }
                build_ok := true })).output_streams
      = [("Speakers", { channels := 2, sample_rate := 48000 })] := by
  refine ⟨?_, ?_, ?_, ?_, ?_⟩
  · have h := (c5_sample_rate_policy 48000 48000
      { supported_output_configs :=
          some [{ channels := 2, min_sample_rate := 44100,
                  max_sample_rate := 48000 }]
        default_output_config := some { channels := 2, sample_rate := 44100 }
        build_ok := true }
      [] [] []
      { channels := 2, min_sample_rate := 44100, max_sample_rate := 48000 }
      { channels := 2, sample_rate := 44100 } AudioActor.new "X").2.2.1
      rfl (by simp) (by norm_num) (by norm_num)
    simpa [SupportedConfigRange.with_sample_rate] using h
  · have h := (c5_sample_rate_policy 48000 48000
      { supported_output_configs :=
          some [{ channels := 2, min_sample_rate := 44100,
                  max_sample_rate := 44100 }]
        default_output_config := some { channels := 2, sample_rate := 44100 }
        build_ok := true }
      [] [] [{ channels := 2, min_sample_rate := 44100, max_sample_rate := 44100 }]
      { channels := 2, min_sample_rate := 44100, max_sample_rate := 44100 }
      { channels := 2, sample_rate := 44100 } AudioActor.new "X").2.2.2.1
      rfl (by norm_num) rfl
    exact h
  · exact (c5_sample_rate_policy 48000 48000
      { supported_output_configs := some []
        default_output_config := none
        build_ok := true }
      [] [] [] { channels := 2, min_sample_rate := 0, max_sample_rate := 0 }
      { channels := 2, sample_rate := 0 } AudioActor.new "X").1
  · exact (c5_sample_rate_policy 48000 48000
      { supported_output_configs := some []
        default_output_config := none
        build_ok := true }
      [] [] [] { channels := 2, min_sample_rate := 0, max_sample_rate := 0 }
      { channels := 2, sample_rate := 0 } AudioActor.new "X").2.1
  · have h := (c5_sample_rate_policy 48000 48000
      { supported_output_configs :=
          some [{ channels := 2, min_sample_rate := 44100,
                  max_sample_rate := 48000 }]
        default_output_config := some { channels := 2, sample_rate := 44100 }
        build_ok := true }
      [] [] []
      { channels := 2, min_sample_rate := 44100, max_sample_rate := 48000 }
      { channels := 2, sample_rate := 44100 }
      { AudioActor.new with capture_sample_rate := some 48000 }
      "Speakers").2.2.2.2 rfl rfl
    rw [h]
    rfl

/-- Claim C6: a capture-callback invocation delivering a block of `N`
samples appends to each registered producer's channel exactly the longest
prefix of the gain-scaled block that fits — so each channel receives up to
`N` samples, fewer only when it hits capacity — it never exceeds `N`, a
shortfall means the channel ended exactly full, and removing one producer
does not affect delivery to the remaining ones. -/
theorem c6_capture_fanout (data : List ℚ) (im : MCell Bool) (iv : MCell ℚ)
    (producers : List (String × RingBuf)) (rb : RingBuf) (nm : String)
    (hcap : rb.buf.length ≤ rb.capacity) :
    capture_callback data im iv false producers
      = producers.map
          (fun p => (p.1, feed_producer data (effective_gain im iv) p.2)) ∧
    (feed_producer data (effective_gain im iv) rb).buf
      = rb.buf
        ++ ((data.map (fun s => s * effective_gain im iv)).take
              (rb.capacity - rb.buf.length)) ∧
    (feed_producer data (effective_gain im iv) rb).buf.length
      ≤ rb.buf.length + data.length ∧
    ((feed_producer data (effective_gain im iv) rb).buf.length
        < rb.buf.length + data.length →
      (feed_producer data (effective_gain im iv) rb).buf.length
        = rb.capacity) ∧
    capture_callback data im iv false
        (producers.filter (fun p => decide (p.1 ≠ nm)))
      = (capture_callback data im iv false producers).filter
          (fun p => decide (p.1 ≠ nm)) := by
  have hspec := feed_producer_spec (effective_gain im iv) data rb
  have hlen : (feed_producer data (effective_gain im iv) rb).buf.length
      = rb.buf.length
        + min (rb.capacity - rb.buf.length) data.length := by
    rw [hspec.2]
    simp [List.length_take]
  refine ⟨rfl, hspec.2, ?_, ?_, ?_⟩
  · rw [hlen]; omega
  · rw [hlen]; intro hshort; omega
  · simp only [capture_callback]
    exact map_keyed_filter
      (fun k b => feed_producer data (effective_gain im iv) b)
      (fun k => decide (k ≠ nm)) producers

/-- Witness for C6: a 3-sample block into a channel of capacity 2 at unity
gain delivers exactly the first two samples. -/
theorem c6_witness :
    (feed_producer [1, 2, 3]
        (effective_gain { val := false, poisoned := false }
          { val := (1 : ℚ), poisoned := false })
        { capacity := 2, buf := [] }).buf = [1, 2] := by
  have h := (c6_capture_fanout [1, 2, 3] { val := false, poisoned := false }
      { val := (1 : ℚ), poisoned := false } []
      { capacity := 2, buf := [] } "A" (by simp)).2.1
  simpa [effective_gain] using h

/-- Claim C10: `load_config` is total over its failure cases — whenever the
config path cannot be determined, the file does not exist, the file cannot
be read, or its contents fail to parse, it returns the default
configuration `(input_volume = 1, input_muted = false, outputs = [])`. -/
theorem c10_load_config_defaults (env : ConfigEnv)
    (h : env.config_path = none ∨ env.file_exists = false ∨
        env.read_to_string = none ∨
        ∃ content, env.read_to_string = some content ∧
          env.parse content = none) :
    load_config env = AppConfig.default_config ∧
    AppConfig.default_config
      = { input_volume := 1, input_muted := false, outputs := [] } := by
  refine ⟨?_, rfl⟩
  rcases h with h | h | h | ⟨content, h1, h2⟩ <;>
    cases hcp : env.config_path <;>
      cases hfe : env.file_exists <;>
        simp_all [load_config]

/-- Witness for C10: a readable file whose contents fail to parse yields the
default configuration. -/
theorem c10_witness :
    load_config
        { config_path := some "cfg"
          file_exists := true
          read_to_string := some "oops"
          parse := fun _ => none }
      = AppConfig.default_config :=
  (c10_load_config_defaults
      { config_path := some "cfg"
        file_exists := true
        read_to_string := some "oops"
        parse := fun _ => none }
      (Or.inr (Or.inr (Or.inr ⟨"oops", rfl, rfl⟩)))).1
